import Mathlib

/-!
Verification of the job-orchestration layer of the SeedVR worker
(`api_server.py`, `runpod_handler.py`).

The embedding models:
- the job record (`tasks[task_id]` dict in `api_server.py`);
- `create_inference` (submission endpoint);
- `process_video` (the background execution pipeline), as a function from an
  environment (engine/staging outcomes) to an event trace, the final record,
  and the durable-results state;
- `SeedVRWorker.process_video` from `runpod_handler.py` (the synchronous
  front-end), tracking which temporary resources are created and removed;
- `delete_task` (the delete endpoint);
- interleavings of two concurrent pipeline runs, to reason about
  serialization of engine invocations.

Machine details abstracted: file contents are strings, elapsed wall-clock
time is a `Nat` supplied by the environment, base64 decoding/encoding and
the compute engine are opaque outcomes supplied by the environment.
-/

namespace SeedVR

/-- Job status values, as stored in `tasks[task_id]["status"]`
("pending" / "processing" / "completed" / "failed"). -/
inductive Status where
  | pending
  | processing
  | completed
  | failed
  deriving DecidableEq, Repr, BEq

/-- A job record: the dict stored in `tasks[task_id]` in `api_server.py`
(`status`, `message`, `output_path`, `processing_time`).  Elapsed time is
abstracted to `Option Nat`. -/
structure TaskRecord where
  status : Status
  message : String
  output_path : Option String
  processing_time : Option Nat
  deriving DecidableEq, Repr, BEq

/-- The record created by `create_inference` (api_server.py lines 167-172). -/
def initialRecord : TaskRecord :=
  { status := .pending
    message := "Task created, processing will start shortly"
    output_path := none
    processing_time := none }

/-- The in-flight update performed at the top of `process_video`
(api_server.py lines 201-202). -/
def processingRecord (r : TaskRecord) : TaskRecord :=
  { r with status := .processing, message := "Processing video..." }

/-- Observable events of one background pipeline run, in program order.
`acquireGate`/`releaseGate` stand for any explicit mutual-exclusion
primitive around the engine; the source contains none, so no run ever emits
them.  `engineEnter`/`engineExit` bracket the (blocking) call to
`generation_loop`. -/
inductive Ev where
  | setProcessing
  | allocWorkspace
  | stageInput
  | acquireGate
  | releaseGate
  | engineEnter
  | engineExit
  | moveArtifact (dest : String)
  | setCompleted
  | setFailed (msg : String)
  | releaseWorkspace
  deriving DecidableEq, Repr, BEq

/-- Environment of one background pipeline run: outcome of staging the
uploaded bytes (`video.read` / `buffer.write`), outcome of the engine call
(`generation_loop` either raises with a message, or leaves a list of files
in `output_dir`, listed in filesystem enumeration order), and the elapsed
time reported by the clock. -/
structure Env where
  stagingError : Option String
  engineOutcome : Except String (List String)
  elapsed : Nat
  deriving Repr

/-- Result of one background pipeline run: the events it performed, the
final job record, and the artifact paths present in the durable results
directory (`/app/results`) when it finished. -/
structure PipelineResult where
  events : List Ev
  record : TaskRecord
  resultsFs : List String
  deriving Repr

/-- `process_video` from `api_server.py` (lines 194-277).  Control flow:
set status to processing; make the temp workspace; write the upload; call
`generation_loop`; `glob` the output dir, raising
"No output file generated" when empty, else taking the first entry;
`shutil.move` it into `/app/results` under the name `task_id ++ "_" ++ f`;
mark completed.  Any
exception is caught and recorded as a failed status with message
`"Processing failed: " ++ str(e)`; the `finally` block removes the
workspace on every path. -/
def process_video (task_id : String) (rec : TaskRecord) (env : Env) :
    PipelineResult :=
  let rec1 := processingRecord rec
  let failRec := fun (msg : String) =>
    { rec1 with status := .failed
                message := msg
                processing_time := some env.elapsed }
  match env.stagingError with
  | some e =>
      { events := [.setProcessing, .allocWorkspace,
                   .setFailed ("Processing failed: " ++ e), .releaseWorkspace]
        record := failRec ("Processing failed: " ++ e)
        resultsFs := [] }
  | none =>
      let evs := [Ev.setProcessing, .allocWorkspace, .stageInput,
                  .engineEnter, .engineExit]
      match env.engineOutcome with
      | .error e =>
          { events := evs ++ [.setFailed ("Processing failed: " ++ e),
                              .releaseWorkspace]
            record := failRec ("Processing failed: " ++ e)
            resultsFs := [] }
      | .ok [] =>
          { events := evs ++
              [.setFailed ("Processing failed: " ++ "No output file generated"),
               .releaseWorkspace]
            record := failRec ("Processing failed: " ++ "No output file generated")
            resultsFs := [] }
      | .ok (f :: _) =>
          let dest := "/app/results/" ++ task_id ++ "_" ++ f
          { events := evs ++ [.moveArtifact dest, .setCompleted, .releaseWorkspace]
            record := { rec1 with
                          status := .completed
                          message := "Video processing completed successfully"
                          output_path := some dest
                          processing_time := some env.elapsed }
            resultsFs := [dest] }

/-- The uploaded file metadata FastAPI hands to `create_inference`:
`video.filename` and `video.content_type`. -/
structure Video where
  filename : String
  content_type : String
  deriving DecidableEq, Repr

/-- The response model returned by the endpoints
(`InferenceResponse` in `api_server.py`). -/
structure InferenceResponse where
  task_id : String
  status : String
  message : String
  output_path : Option String := none
  processing_time : Option Nat := none
  deriving DecidableEq, Repr

/-- Server-side mutable state touched by the endpoints: the `tasks` dict
(an insertion-ordered keyed map, modelled as an association list with
unique keys maintained by the operations below) and the set of task ids
handed to `background_tasks.add_task`. -/
structure ApiState where
  tasks : List (String × TaskRecord)
  scheduled : List String
  deriving Repr

/-- `tasks[task_id]` lookup. -/
def ApiState.get (st : ApiState) (k : String) : Option TaskRecord :=
  st.tasks.lookup k

/-- `tasks[task_id] = v` (dict assignment: replaces any existing binding). -/
def ApiState.set (st : ApiState) (k : String) (v : TaskRecord) : ApiState :=
  { st with tasks := (k, v) :: st.tasks.filter (fun e => !(e.1 == k)) }

/-- `del tasks[task_id]`. -/
def ApiState.del (st : ApiState) (k : String) : ApiState :=
  { st with tasks := st.tasks.filter (fun e => !(e.1 == k)) }

/-- Python `s.startswith(pre)`, computed on the character lists. -/
def startswith (s pre : String) : Bool :=
  pre.data.isPrefixOf s.data

/-- `create_inference` from `api_server.py` (lines 142-192): reject when the
model is not loaded (503) or the content type of the upload is not `video/*`
(400, "File must be a video"); otherwise create a fresh pending record,
schedule `process_video` as a background task, and return immediately with
the id and pending status.  `freshId` is the `uuid.uuid4()` value supplied
by the runtime. -/
def create_inference (model_loaded : Bool) (st : ApiState) (freshId : String)
    (video : Video) : Except (Nat × String) (ApiState × InferenceResponse) :=
  if !model_loaded then
    .error (503, "Model not loaded")
  else if !(startswith video.content_type "video/") then
    .error (400, "File must be a video")
  else
    .ok ({ (st.set freshId initialRecord) with
             scheduled := st.scheduled ++ [freshId] },
         { task_id := freshId
           status := "pending"
           message := "Task created successfully" })

/-- `delete_task` from `api_server.py` (lines 319-334): 404 when the id is
unknown; otherwise remove the output file only when the record points at
one AND it exists (`os.path.exists`), then delete the record and report
success.  `fs` is the set of artifact paths present in durable storage. -/
def delete_task (st : ApiState) (fs : List String) (task_id : String) :
    Except (Nat × String) (ApiState × List String × String) :=
  match st.get task_id with
  | none => .error (404, "Task not found")
  | some task =>
      let fs2 := match task.output_path with
        | some p => if fs.contains p then fs.erase p else fs
        | none => fs
      .ok (st.del task_id, fs2, "Task deleted successfully")

/-- Input dict of a RunPod job (`job["input"]`), restricted to the fields
that drive control flow in `SeedVRWorker.process_video`. -/
structure JobInput where
  video_data : Option String
  video_url : Option String
  deriving Repr

/-- Environment of one synchronous run: outcome of base64-decoding
`video_data`, outcome of the engine call (`generation_step` returns a
result path or raises), and outcome of reading/encoding the result file. -/
structure SyncEnv where
  decodeError : Option String
  engineOutcome : Except String String
  encodeError : Option String
  encodedResult : String
  deriving Repr

/-- Result dict of `SeedVRWorker.process_video`. -/
inductive SyncResult where
  | success (result_video : String) (result_path : String)
  | error (msg : String)
  deriving DecidableEq, Repr

/-- Outcome of one synchronous run, tracking the temporary resources the
code creates (the decoded input temp file, the `tempfile.mkdtemp()` output
directory) and which of them it removes before returning. -/
structure SyncRun where
  result : SyncResult
  tempInputCreated : Bool
  tempInputRemoved : Bool
  outputDirCreated : Bool
  outputDirRemoved : Bool
  engineInvoked : Bool
  deriving Repr

/-- `SeedVRWorker.process_video` from `runpod_handler.py` (lines 80-150):
validate that `video_data` or `video_url` is present; decode `video_data`
to a temp file when given (else use the url as the path); `mkdtemp()` an
output dir; call the engine; base64-encode the result file; `os.unlink`
the temp input only when it was created; return a success dict.  Every
exception is caught and returned as an error dict — with no cleanup of
whatever was created before the raise, and the output dir is never
removed on any path. -/
def worker_process_video (inp : JobInput) (env : SyncEnv) : SyncRun :=
  if inp.video_data = none && inp.video_url = none then
    { result := .error
        "Either \x27video_data\x27 (base64) or \x27video_url\x27 must be provided"
      tempInputCreated := false, tempInputRemoved := false
      outputDirCreated := false, outputDirRemoved := false
      engineInvoked := false }
  else
    let hasData := inp.video_data.isSome
    match hasData, env.decodeError with
    | true, some e =>
        { result := .error e
          tempInputCreated := false, tempInputRemoved := false
          outputDirCreated := false, outputDirRemoved := false
          engineInvoked := false }
    | _, _ =>
        match env.engineOutcome with
        | .error e =>
            { result := .error e
              tempInputCreated := hasData, tempInputRemoved := false
              outputDirCreated := true, outputDirRemoved := false
              engineInvoked := true }
        | .ok result_path =>
            match env.encodeError with
            | some e =>
                { result := .error e
                  tempInputCreated := hasData, tempInputRemoved := false
                  outputDirCreated := true, outputDirRemoved := false
                  engineInvoked := true }
            | none =>
                { result := .success env.encodedResult result_path
                  tempInputCreated := hasData, tempInputRemoved := hasData
                  outputDirCreated := true, outputDirRemoved := false
                  engineInvoked := true }

/-- The statuses written to a job record, in order, by a list of pipeline
events. -/
def statusUpdates : List Ev → List Status
  | [] => []
  | .setProcessing :: r => .processing :: statusUpdates r
  | .setCompleted :: r => .completed :: statusUpdates r
  | .setFailed _ :: r => .failed :: statusUpdates r
  | _ :: r => statusUpdates r

/-- The job records observable for a background job over its lifetime: the
record at creation, after the processing update, and after the terminal
update. -/
def reachableRecords (task_id : String) (env : Env) : List TaskRecord :=
  [initialRecord, processingRecord initialRecord,
   (process_video task_id initialRecord env).record]

/-- Events of a concurrent execution: each event is tagged with the number
of the job that performed it. -/
def projTrace (j : Nat) (tr : List (Nat × Ev)) : List Ev :=
  (tr.filter (fun p => p.1 == j)).map (·.2)

/-- `tr` is an interleaving of the event lists `l1` (job 1) and `l2`
(job 2): projecting on each job recovers its program order. -/
def isInterleaving (tr : List (Nat × Ev)) (l1 l2 : List Ev) : Bool :=
  projTrace 1 tr == l1 && projTrace 2 tr == l2 &&
    tr.all (fun p => p.1 == 1 || p.1 == 2)

/-- Scan of a tagged trace: `true` when at some point a job enters the
engine while another job is already inside it (overlapping engine
invocations). -/
def overlapAux : List Nat → List (Nat × Ev) → Bool
  | _, [] => false
  | inside, (j, .engineEnter) :: rest =>
      if inside.isEmpty then overlapAux (j :: inside) rest else true
  | inside, (j, .engineExit) :: rest => overlapAux (inside.erase j) rest
  | inside, _ :: rest => overlapAux inside rest

/-- Whether two engine invocations overlap somewhere in the trace. -/
def engineOverlap (tr : List (Nat × Ev)) : Bool :=
  overlapAux [] tr

/-- A successful-run environment: staging succeeds and the engine produces
one artifact. -/
def okEnv : Env :=
  { stagingError := none, engineOutcome := .ok ["out.mp4"], elapsed := 1 }

/-- Event list of the pipeline run for job id `tid` under `okEnv`. -/
def pipelineEvents (tid : String) : List Ev :=
  (process_video tid initialRecord okEnv).events

/-- A concrete schedule of two concurrent pipeline runs in which job 2
performs its whole run while job 1 sits inside its engine invocation.
Nothing in the pipeline forbids it: the code takes no lock. -/
def overlapTrace : List (Nat × Ev) :=
  ((pipelineEvents "a").take 4).map (fun e => (1, e)) ++
    (pipelineEvents "b").map (fun e => (2, e)) ++
    ((pipelineEvents "a").drop 4).map (fun e => (1, e))

/-- Helper: looking up a key after filtering out all its bindings yields
nothing (dict deletion really removes the key). -/
theorem lookup_filter_ne (l : List (String × TaskRecord)) (k : String) :
    (l.filter (fun e => !(e.1 == k))).lookup k = none := by
  induction l with
  | nil => rfl
  | cons a t ih =>
      rw [List.filter_cons]
      by_cases h : a.1 = k
      · rw [if_neg (by simp [h])]
        exact ih
      · rw [if_pos (by simp [h])]
        obtain ⟨a1, a2⟩ := a
        simp only at h
        have hk : (k == a1) = false := beq_eq_false_iff_ne.mpr (Ne.symm h)
        rw [List.lookup, hk]
        exact ih

/-- Events of the pipeline that would represent an explicit
mutual-exclusion gate around the engine. -/
def isGateEv : Ev → Bool
  | .acquireGate => true
  | .releaseGate => true
  | _ => false

/-- C1 counterexample: the concrete schedule `overlapTrace` is a genuine
interleaving of two pipeline runs, and in it the two engine invocations
overlap — job 2 enters the engine while job 1 is still inside it.  The
claim that engine invocations of concurrent jobs never overlap is false of
the code. -/
theorem c1_counterexample :
    isInterleaving overlapTrace (pipelineEvents "a") (pipelineEvents "b") = true ∧
      engineOverlap overlapTrace = true := by
  decide

/-- C1 (amended): the pipeline contains no mutual-exclusion gate around the
engine invocation — no run ever performs a gate acquire or release — and
consequently there is a valid interleaving of two concurrent runs whose
engine invocations overlap. -/
theorem c1_no_engine_serialization :
    (∀ tid rec env, ((process_video tid rec env).events).filter isGateEv = []) ∧
      ∃ tr, isInterleaving tr (pipelineEvents "a") (pipelineEvents "b") = true ∧
        engineOverlap tr = true := by
  constructor
  · intro tid rec env
    obtain ⟨se, eo, el⟩ := env
    rcases se with _ | e
    · rcases eo with e | (_ | ⟨f, fs⟩) <;> rfl
    · rfl
  · exact ⟨overlapTrace, by decide⟩

/-- C2 counterexample: a synchronous run that decodes an embedded payload
and then fails in the engine leaves both halves of its workspace behind —
the decoded input temp file and the output directory were created and
neither is removed (and even a successful run never removes the output
directory). -/
theorem c2_counterexample :
    ((worker_process_video ⟨some "AAAA", none⟩
        ⟨none, .error "CUDA error", none, ""⟩).tempInputCreated = true ∧
      (worker_process_video ⟨some "AAAA", none⟩
        ⟨none, .error "CUDA error", none, ""⟩).tempInputRemoved = false ∧
      (worker_process_video ⟨some "AAAA", none⟩
        ⟨none, .error "CUDA error", none, ""⟩).outputDirCreated = true ∧
      (worker_process_video ⟨some "AAAA", none⟩
        ⟨none, .error "CUDA error", none, ""⟩).outputDirRemoved = false) ∧
    (worker_process_video ⟨some "AAAA", none⟩
        ⟨none, .ok "/tmp/out.mp4", none, "enc"⟩).outputDirRemoved = false := by
  decide

/-- C2 (amended): in the background front-end the workspace release is the
last pipeline event on every exit path; in the synchronous front-end the
output directory is never removed, and an error-result run removes
nothing at all. -/
theorem c2_workspace_cleanup :
    (∀ tid rec env,
        ((process_video tid rec env).events).getLast? = some Ev.releaseWorkspace) ∧
      ∀ inp senv, (worker_process_video inp senv).outputDirRemoved = false ∧
        (∀ m, (worker_process_video inp senv).result = .error m →
          (worker_process_video inp senv).tempInputRemoved = false) := by
  constructor
  · intro tid rec env
    obtain ⟨se, eo, el⟩ := env
    rcases se with _ | e
    · rcases eo with e | (_ | ⟨f, fs⟩) <;> rfl
    · rfl
  · intro inp senv
    obtain ⟨vd, vu⟩ := inp
    obtain ⟨de, eo, ee, er⟩ := senv
    rcases vd with _ | d <;> rcases vu with _ | u <;>
      rcases de with _ | dmsg <;> rcases eo with e | rp <;>
        rcases ee with _ | emsg <;>
          simp [worker_process_video]

/-- C2 witness: the cleanup facts evaluated on a concrete successful
background run and a concrete failing synchronous run. -/
theorem c2_workspace_cleanup_witness :
    ((process_video "t" initialRecord okEnv).events).getLast? =
        some Ev.releaseWorkspace ∧
      (worker_process_video ⟨some "x", none⟩
          ⟨none, .error "boom", none, ""⟩).outputDirRemoved = false ∧
      (worker_process_video ⟨some "x", none⟩
          ⟨none, .error "boom", none, ""⟩).tempInputRemoved = false :=
  ⟨c2_workspace_cleanup.1 "t" initialRecord okEnv,
   (c2_workspace_cleanup.2 ⟨some "x", none⟩ ⟨none, .error "boom", none, ""⟩).1,
   (c2_workspace_cleanup.2 ⟨some "x", none⟩
       ⟨none, .error "boom", none, ""⟩).2 "boom" rfl⟩

/-- C3: the observed status sequence of every background job is exactly
Pending, then Processing, then exactly one of Completed or Failed — in
every environment, with no regression and no re-entry after the terminal
update. -/
theorem c3_status_monotone (tid : String) (env : Env) :
    Status.pending :: statusUpdates (process_video tid initialRecord env).events =
        [Status.pending, .processing, .completed] ∨
      Status.pending :: statusUpdates (process_video tid initialRecord env).events =
        [Status.pending, .processing, .failed] := by
  obtain ⟨se, eo, el⟩ := env
  rcases se with _ | e
  · rcases eo with e | (_ | ⟨f, fs⟩)
    · right; rfl
    · right; rfl
    · left; rfl
  · right; rfl

/-- C4: every record a background job can exhibit satisfies: the output
path is set iff the status is Completed; and a Completed record points at
an artifact that is present in the durable results directory when the run
finishes. -/
theorem c4_output_iff_completed (tid : String) (env : Env) (r : TaskRecord)
    (hr : r ∈ reachableRecords tid env) :
    (r.output_path ≠ none ↔ r.status = .completed) ∧
      (r.status = .completed →
        ∃ p, r.output_path = some p ∧
          p ∈ (process_video tid initialRecord env).resultsFs) := by
  obtain ⟨se, eo, el⟩ := env
  simp only [reachableRecords, List.mem_cons, List.not_mem_nil, or_false] at hr
  rcases hr with rfl | rfl | rfl
  · simp [initialRecord]
  · simp [processingRecord, initialRecord]
  · rcases se with _ | e
    · rcases eo with e | (_ | ⟨f, fs⟩) <;>
        simp [process_video, processingRecord, initialRecord]
    · simp [process_video, processingRecord, initialRecord]

/-- C4 witness: a Completed record of a concrete successful run satisfies
the invariant, with its artifact present in durable storage. -/
theorem c4_output_iff_completed_witness :
    ((process_video "t1" initialRecord okEnv).record.output_path ≠ none ↔
        (process_video "t1" initialRecord okEnv).record.status = .completed) ∧
      ((process_video "t1" initialRecord okEnv).record.status = .completed →
        ∃ p, (process_video "t1" initialRecord okEnv).record.output_path = some p ∧
          p ∈ (process_video "t1" initialRecord okEnv).resultsFs) :=
  c4_output_iff_completed "t1" okEnv
    (process_video "t1" initialRecord okEnv).record
    (by
      unfold reachableRecords
      exact List.mem_cons_of_mem _ (List.mem_cons_of_mem _ (List.mem_cons_self _ _)))

/-- C5: a submission whose upload is not a recognized media type is
rejected synchronously with the validation error, creating no record and
scheduling nothing; and a synchronous call that supplies neither an
embedded payload nor an external reference returns the validation error
with the engine never invoked and no workspace resource allocated. -/
theorem c5_validation_rejected :
    (∀ st freshId video, startswith video.content_type "video/" = false →
        create_inference true st freshId video =
          .error (400, "File must be a video")) ∧
      ∀ inp env, inp.video_data = none → inp.video_url = none →
        (worker_process_video inp env).result =
            .error "Either \x27video_data\x27 (base64) or \x27video_url\x27 must be provided" ∧
          (worker_process_video inp env).engineInvoked = false ∧
          (worker_process_video inp env).tempInputCreated = false ∧
          (worker_process_video inp env).outputDirCreated = false := by
  constructor
  · intro st freshId video h
    simp [create_inference, h]
  · intro inp env hd hu
    obtain ⟨vd, vu⟩ := inp
    simp only at hd hu
    subst hd hu
    exact ⟨rfl, rfl, rfl, rfl⟩

/-- C5 witness: a text upload is rejected with the 400 validation error,
and the empty synchronous input yields the validation error with no engine
call and no workspace. -/
theorem c5_validation_rejected_witness :
    (create_inference true ⟨[], []⟩ "id0" ⟨"notes.txt", "text/plain"⟩ =
        .error (400, "File must be a video")) ∧
      (worker_process_video ⟨none, none⟩ ⟨none, .ok "p", none, "e"⟩).result =
          .error "Either \x27video_data\x27 (base64) or \x27video_url\x27 must be provided" ∧
        (worker_process_video ⟨none, none⟩ ⟨none, .ok "p", none, "e"⟩).engineInvoked = false ∧
        (worker_process_video ⟨none, none⟩ ⟨none, .ok "p", none, "e"⟩).tempInputCreated = false ∧
        (worker_process_video ⟨none, none⟩ ⟨none, .ok "p", none, "e"⟩).outputDirCreated = false :=
  ⟨c5_validation_rejected.1 ⟨[], []⟩ "id0" ⟨"notes.txt", "text/plain"⟩ (by decide),
   c5_validation_rejected.2 ⟨none, none⟩ ⟨none, .ok "p", none, "e"⟩ rfl rfl⟩

/-- C6: when a background run fails — in staging or in the engine — the
failure is captured in the terminal record: status Failed, and the
exception text preserved verbatim inside the message ("Processing
failed: " prefixed).  The pipeline is a total function into records (every
exception is caught), so no failure reaches the submitter, whose response
was already produced at submission time. -/
theorem c6_failure_captured (tid : String) (env : Env) (e : String)
    (h : env.stagingError = some e ∨
         env.stagingError = none ∧ env.engineOutcome = .error e) :
    (process_video tid initialRecord env).record.status = .failed ∧
      (process_video tid initialRecord env).record.message =
        "Processing failed: " ++ e ∧
      ∃ pre, (process_video tid initialRecord env).record.message = pre ++ e := by
  obtain ⟨se, eo, el⟩ := env
  rcases h with h | ⟨h1, h2⟩
  · simp only at h
    subst h
    exact ⟨rfl, rfl, "Processing failed: ", rfl⟩
  · simp only at h1 h2
    subst h1 h2
    exact ⟨rfl, rfl, "Processing failed: ", rfl⟩

/-- C6 witness: a concrete engine failure is recorded as a Failed record
with its text preserved. -/
theorem c6_failure_captured_witness :
    (process_video "t2" initialRecord
        ⟨none, .error "CUDA out of memory", 7⟩).record.status = .failed ∧
      (process_video "t2" initialRecord
          ⟨none, .error "CUDA out of memory", 7⟩).record.message =
        "Processing failed: " ++ "CUDA out of memory" ∧
      ∃ pre, (process_video "t2" initialRecord
          ⟨none, .error "CUDA out of memory", 7⟩).record.message =
        pre ++ "CUDA out of memory" :=
  c6_failure_captured "t2" ⟨none, .error "CUDA out of memory", 7⟩
    "CUDA out of memory" (Or.inr ⟨rfl, rfl⟩)

/-- C7 counterexample: the zero-artifact failure text is
"No output file generated", not "no output generated"; and when the engine
leaves the same two artifacts, enumerating them in a different filesystem
order changes which one the pipeline publishes — the selection is not
independent of enumeration order. -/
theorem c7_counterexample :
    (process_video "t" initialRecord
        ⟨none, .ok [], 1⟩).record.message ≠
      "Processing failed: " ++ "no output generated" ∧
    (List.Perm ["a.mp4", "b.mp4"] ["b.mp4", "a.mp4"] ∧
      (process_video "t" initialRecord
          ⟨none, .ok ["a.mp4", "b.mp4"], 1⟩).record.output_path ≠
        (process_video "t" initialRecord
            ⟨none, .ok ["b.mp4", "a.mp4"], 1⟩).record.output_path) := by
  refine ⟨by decide, List.Perm.swap _ _ _, by decide⟩

/-- C7 (amended): after the engine runs, zero artifacts makes the run fail
with the exception text "No output file generated" (recorded with the
"Processing failed: " prefix); one or more artifacts makes the pipeline
publish the first artifact in filesystem enumeration order — a choice that
depends on that order rather than on a stable sorting. -/
theorem c7_artifact_selection :
    (∀ tid env, env.stagingError = none → env.engineOutcome = .ok [] →
        (process_video tid initialRecord env).record.status = .failed ∧
          (process_video tid initialRecord env).record.message =
            "Processing failed: " ++ "No output file generated") ∧
      ∀ tid env f rest, env.stagingError = none →
        env.engineOutcome = .ok (f :: rest) →
        (process_video tid initialRecord env).record.output_path =
          some ("/app/results/" ++ tid ++ "_" ++ f) := by
  constructor
  · intro tid env h1 h2
    obtain ⟨se, eo, el⟩ := env
    simp only at h1 h2
    subst h1 h2
    exact ⟨rfl, rfl⟩
  · intro tid env f rest h1 h2
    obtain ⟨se, eo, el⟩ := env
    simp only at h1 h2
    subst h1 h2
    rfl

/-- C7 witness: with no artifact the concrete run fails with the recorded
text; with artifacts enumerated as b.mp4 then a.mp4 the published path is
built from b.mp4, the first in enumeration order. -/
theorem c7_artifact_selection_witness :
    ((process_video "t" initialRecord ⟨none, .ok [], 1⟩).record.status = .failed ∧
      (process_video "t" initialRecord ⟨none, .ok [], 1⟩).record.message =
        "Processing failed: " ++ "No output file generated") ∧
    (process_video "t" initialRecord
        ⟨none, .ok ["b.mp4", "a.mp4"], 1⟩).record.output_path =
      some ("/app/results/" ++ "t" ++ "_" ++ "b.mp4") :=
  ⟨c7_artifact_selection.1 "t" ⟨none, .ok [], 1⟩ rfl rfl,
   c7_artifact_selection.2 "t" ⟨none, .ok ["b.mp4", "a.mp4"], 1⟩
     "b.mp4" ["a.mp4"] rfl rfl⟩

/-- C8 counterexample: in a successful run the Processing update is the
very first pipeline event — it precedes workspace allocation and input
staging — and the event immediately after it is not the engine invocation;
so the transition neither happens after staging has begun nor immediately
before the engine step. -/
theorem c8_counterexample :
    pipelineEvents "t" =
        [.setProcessing, .allocWorkspace, .stageInput, .engineEnter, .engineExit,
         .moveArtifact "/app/results/t_out.mp4", .setCompleted, .releaseWorkspace] ∧
      (pipelineEvents "t").get? 0 = some .setProcessing ∧
      (pipelineEvents "t").get? 1 ≠ some .engineEnter ∧
      (pipelineEvents "t").get? 2 = some .stageInput := by
  decide

/-- C8 (amended): in every environment the Pending to Processing update is
the first event of the pipeline run — performed before workspace
allocation and input staging — and it sets the record message to
"Processing video...". -/
theorem c8_processing_first :
    ∀ tid rec env, ((process_video tid rec env).events).head? =
        some Ev.setProcessing ∧
      (processingRecord rec).status = .processing ∧
      (processingRecord rec).message = "Processing video..." := by
  intro tid rec env
  obtain ⟨se, eo, el⟩ := env
  rcases se with _ | e
  · rcases eo with e | (_ | ⟨f, fs⟩) <;> exact ⟨rfl, rfl, rfl⟩
  · exact ⟨rfl, rfl, rfl⟩

/-- C9 counterexample: the Pending record created by a valid submission
carries the message "Task created, processing will start shortly", not
"queued". -/
theorem c9_counterexample :
    ∃ st2 resp,
      create_inference true ⟨[], []⟩ "id0" ⟨"v.mp4", "video/mp4"⟩ =
          .ok (st2, resp) ∧
        st2.get "id0" = some initialRecord ∧
        initialRecord.status = .pending ∧
        initialRecord.message ≠ "queued" := by
  refine ⟨⟨[("id0", initialRecord)], ["id0"]⟩,
    { task_id := "id0", status := "pending",
      message := "Task created successfully" }, rfl, by decide, rfl, by decide⟩

/-- C9 (amended): a valid submission creates a fresh Pending record whose
message is "Task created, processing will start shortly", schedules the
pipeline run for that id, and returns immediately with the id and pending
status (message "Task created successfully"). -/
theorem c9_submission (st : ApiState) (freshId : String) (video : Video)
    (hfresh : st.get freshId = none)
    (hvalid : startswith video.content_type "video/" = true) :
    ∃ st2 resp,
      create_inference true st freshId video = .ok (st2, resp) ∧
        st2.get freshId = some initialRecord ∧
        initialRecord.status = .pending ∧
        initialRecord.message = "Task created, processing will start shortly" ∧
        freshId ∈ st2.scheduled ∧
        resp = { task_id := freshId, status := "pending",
                 message := "Task created successfully" } := by
  refine ⟨{ tasks := (freshId, initialRecord) ::
              st.tasks.filter (fun e => !(e.1 == freshId)),
            scheduled := st.scheduled ++ [freshId] },
    { task_id := freshId, status := "pending",
      message := "Task created successfully" }, ?_, ?_, rfl, rfl, ?_, rfl⟩
  · simp [create_inference, hvalid, ApiState.set]
  · simp [ApiState.get, List.lookup]
  · simp

/-- C9 witness: a concrete valid submission to an empty store. -/
theorem c9_submission_witness :
    ∃ st2 resp,
      create_inference true ⟨[], []⟩ "id1" ⟨"v.mp4", "video/mp4"⟩ =
          .ok (st2, resp) ∧
        st2.get "id1" = some initialRecord ∧
        initialRecord.status = .pending ∧
        initialRecord.message = "Task created, processing will start shortly" ∧
        "id1" ∈ st2.scheduled ∧
        resp = { task_id := "id1", status := "pending",
                 message := "Task created successfully" } :=
  c9_submission ⟨[], []⟩ "id1" ⟨"v.mp4", "video/mp4"⟩ rfl (by decide)

/-- C10: deleting a job whose id is in the store always succeeds and
removes the record, and when the record holds an output path whose
artifact is absent from durable storage the file removal is silently
skipped (storage is left unchanged) rather than raised as an error. -/
theorem c10_delete_known_id (st : ApiState) (fs : List String) (tid : String)
    (task : TaskRecord) (h : st.get tid = some task) :
    ∃ st2 fs2,
      delete_task st fs tid = .ok (st2, fs2, "Task deleted successfully") ∧
        st2.get tid = none ∧
        ∀ p, task.output_path = some p → fs.contains p = false → fs2 = fs := by
  refine ⟨st.del tid,
    (match task.output_path with
      | some p => if fs.contains p then fs.erase p else fs
      | none => fs), ?_, ?_, ?_⟩
  · simp only [delete_task, h]
  · exact lookup_filter_ne st.tasks tid
  · intro p hp hcon
    rw [hp]
    simp only [hcon, Bool.false_eq_true, if_false]

/-- C10 witness: deleting a completed job whose artifact has vanished from
durable storage still succeeds, removes the record and leaves storage
untouched. -/
theorem c10_delete_known_id_witness :
    ∃ st2 fs2,
      delete_task
          ⟨[("j1", { status := .completed, message := "done",
                     output_path := some "/app/results/j1_out.mp4",
                     processing_time := some 3 })], []⟩
          [] "j1" = .ok (st2, fs2, "Task deleted successfully") ∧
        st2.get "j1" = none ∧
        ∀ p, ({ status := .completed, message := "done",
                output_path := some "/app/results/j1_out.mp4",
                processing_time := some 3 } : TaskRecord).output_path = some p →
          List.contains [] p = false → fs2 = [] :=
  c10_delete_known_id
    ⟨[("j1", { status := .completed, message := "done",
               output_path := some "/app/results/j1_out.mp4",
               processing_time := some 3 })], []⟩
    [] "j1" _ (by decide)

end SeedVR
